import Mathlib

/-!
Shallow embedding of `worksheet_capture.py`, the single-file burst-capture
and analysis program of this repository, together with proofs about its
startup sequence, capture loop, haptic layer, analysis dispatcher and main
orchestration loop.

External effects (GPIO button, camera driver, filesystem, DRV2605 haptic
driver, HTTPS API) are modelled as explicit inputs: each loop run is
parameterised by the outcomes the environment would hand it, and each
modelled function returns the observable effects it performs.
-/

namespace WorksheetCapture

/-- Python truthiness of an optional string (used by the source in
`if not API_KEY:`, `if base64_image:` and `if response:`): `None` and the
empty string are falsy, every other string is truthy. -/
def truthy : Option String → Bool
  | none => false
  | some s => !s.isEmpty

/-- `BURST_DELAY = 0.20` seconds (line 25), expressed in milliseconds. -/
def BURST_DELAY : Nat := 200

/-! ## Startup (module level, lines 40-72)

The module-level initialisation is modelled as the ordered list of
initialisation events it performs, plus the exit code it raises (`some 1`
for `raise SystemExit(1)`) or `none` when startup completes and control can
reach `main`.  `apiKey` is the value of `os.environ.get("ANTHROPIC_API_KEY")`
(line 26); `hapticsOk` says whether the I2C/DRV2605 initialisation inside
the `try` of lines 47-54 succeeds. -/

inductive StartEvent where
  | mkdirCaptureDir
  | initButton
  | initHaptics (ok : Bool)
  | initCamera
  | startCamera
  | initClient
deriving DecidableEq

/-- Startup order of `worksheet_capture.py` lines 40-72: create the capture
directory, construct the `Button`, attempt haptic init (failure caught,
`HAPTICS_ENABLED = False`), configure and start the camera, only then check
`if not API_KEY:` and `raise SystemExit(1)`, else construct the API client. -/
def startupEvents (apiKey : Option String) (hapticsOk : Bool) :
    List StartEvent × Option Nat :=
  let pre := [StartEvent.mkdirCaptureDir, StartEvent.initButton,
              StartEvent.initHaptics hapticsOk, StartEvent.initCamera,
              StartEvent.startCamera]
  if truthy apiKey then (pre ++ [StartEvent.initClient], none)
  else (pre, some 1)

/-! ## Haptic feedback (lines 78-99)

`_play_haptic_sequence` first returns when `HAPTICS_ENABLED` is false, and
otherwise wraps every driver interaction (the sequence-slot writes, the
`drv.play()` trigger and the optional delayed `drv.stop()`) in a
`try/except Exception: pass`.  The driver is modelled by `failAt`: the index
of the first driver call that raises, if any; `driveSequence` is the body of
the `try`, an `Except` whose error carries the number of calls that had
completed when the exception was raised. -/

structure PlayOutcome where
  driverCallsMade : Nat
  enabledAfter : Bool
deriving DecidableEq

/-- Number of driver calls `_play_haptic_sequence` issues when nothing
raises: one sequence-slot write per effect, one `play`, and one `stop` when
`pause_after` is nonzero. -/
def driverCallCount (effects : List Nat) (pause_after : Bool) : Nat :=
  effects.length + 1 + (if pause_after then 1 else 0)

/-- The `try` body of `_play_haptic_sequence` (lines 81-87): either all
driver calls complete, or the `failAt`-th call raises after `failAt` calls
completed. -/
def driveSequence (failAt : Option Nat) (effects : List Nat)
    (pause_after : Bool) : Except Nat Nat :=
  let total := driverCallCount effects pause_after
  match failAt with
  | some k => if k < total then Except.error k else Except.ok total
  | none => Except.ok total

/-- `_play_haptic_sequence` (lines 78-89): early return when haptics are
disabled; otherwise run the driver sequence and swallow any exception
(`except Exception: pass`).  `HAPTICS_ENABLED` is never assigned here, so
the enabled flag is returned unchanged on every path. -/
def play_haptic_sequence (enabled : Bool) (failAt : Option Nat)
    (effects : List Nat) (pause_after : Bool) : PlayOutcome :=
  if !enabled then { driverCallsMade := 0, enabledAfter := enabled }
  else
    match driveSequence failAt effects pause_after with
    | Except.ok n => { driverCallsMade := n, enabledAfter := enabled }
    | Except.error k => { driverCallsMade := k, enabledAfter := enabled }

/-- `haptic_click` (lines 92-94): the ShutterClick cue. -/
def haptic_click (enabled : Bool) (failAt : Option Nat) : PlayOutcome :=
  play_haptic_sequence enabled failAt [11, 0] false

/-- `haptic_double_click` (lines 97-99): the SuccessDouble cue, with a
0.25 s settle pause before `drv.stop()`. -/
def haptic_double_click (enabled : Bool) (failAt : Option Nat) : PlayOutcome :=
  play_haptic_sequence enabled failAt [11, 11, 0] true

/-- Repeated invocation of `_play_haptic_sequence`: `n` calls starting from
a given enabled flag, threading the flag through and summing the driver
calls made. -/
def playN (failAt : Option Nat) (effects : List Nat) (pause_after : Bool) :
    Nat → Bool → Nat × Bool
  | 0, en => (0, en)
  | n + 1, en =>
      let out := play_haptic_sequence en failAt effects pause_after
      let rest := playN failAt effects pause_after n out.enabledAfter
      (out.driverCallsMade + rest.1, rest.2)

/-! ## Capture loop (`capture_burst`, lines 115-141)

One loop iteration runs while `button.is_pressed`; the environment for an
iteration is a `CaptureOutcome`: either `picam.capture_file` succeeds at a
given millisecond timestamp, or it raises.  On success the body appends the
file, plays the shutter click and sleeps `BURST_DELAY`; on failure the
`except` clause (lines 137-138) only logs, so nothing is appended, no click
is played, no sleep happens, and the loop continues with the next
iteration. -/

inductive CaptureOutcome where
  | ok (timestamp : Nat)
  | fail
deriving DecidableEq

def isFail : CaptureOutcome → Bool
  | CaptureOutcome.fail => true
  | CaptureOutcome.ok _ => false

/-- The capture filename `f"{timestamp}.jpg"` (line 127). -/
def frameFileName (timestamp : Nat) : String := toString timestamp ++ ".jpg"

/-- Observable effects of one iteration of the `while button.is_pressed`
loop body. `sleptMs` is the inter-frame delay actually slept after this
attempt, in milliseconds. -/
structure IterEffects where
  appended : Option String
  clicks : Nat
  sleptMs : Nat
deriving DecidableEq

/-- One iteration of the capture loop body (lines 124-138). -/
def burstIter : CaptureOutcome → IterEffects
  | CaptureOutcome.ok ts =>
      { appended := some (frameFileName ts), clicks := 1, sleptMs := BURST_DELAY }
  | CaptureOutcome.fail =>
      { appended := none, clicks := 0, sleptMs := 0 }

/-- Effects of a whole burst: one `IterEffects` per held-duration cycle. -/
def burstTrace (outcomes : List CaptureOutcome) : List IterEffects :=
  outcomes.map burstIter

/-- `capture_burst` (lines 115-141): the `captured_files` list returned
after the button is released, given the per-cycle capture outcomes. -/
def capture_burst (outcomes : List CaptureOutcome) : List String :=
  (burstTrace outcomes).filterMap IterEffects.appended

/-- Total number of shutter-click cues played during the burst. -/
def burstClicks (outcomes : List CaptureOutcome) : Nat :=
  ((burstTrace outcomes).map IterEffects.clicks).sum

/-! ## Image processing and analysis (lines 147-226)

The filesystem is abstracted as a map from path to `Except Unit String`,
giving the base64 encoding of the file's bytes, or an error when `open`
or `read` raises; the encoding is the empty string exactly when the file is
empty.  The API is abstracted as a map from request content to an
`ApiOutcome`: either `client.messages.create` raises, or it returns a
response whose `content` is a list of text segments. -/

inductive ContentItem where
  | image (data : String)
  | text (prompt : String)
deriving DecidableEq

inductive ApiOutcome where
  | raises
  | response (segments : List String)
deriving DecidableEq

/-- `image_to_base64` (lines 147-154): read and encode the file; a raising
read is caught and converted to `None`. -/
def image_to_base64 (fs : String → Except Unit String)
    (filepath : String) : Option String :=
  match fs filepath with
  | Except.ok encoded => some encoded
  | Except.error _ => none

/-- The fixed analysis prompt (lines 192-201), with the image count of the
original `image_files` list interpolated. -/
def promptText (n : Nat) : String :=
  "You are analyzing " ++ toString n ++
    " burst photos of the same scene.\n\nTASK: Describe what you see in these images. Be specific about:\n1. The overall scene/subject\n2. Image quality (sharpness, lighting, focus)\n3. Which image number appears clearest (if applicable)\n4. Any text, objects, or details visible\n\nProvide a clear, concise analysis."

/-- The request content assembled by `analyze_images` (lines 170-203): one
image entry per frame whose `image_to_base64` result is truthy
(`if base64_image:` — a `None` result or an empty encoding is skipped), in
session order, followed by the single text prompt. -/
def requestContent (fs : String → Except Unit String)
    (image_files : List String) : List ContentItem :=
  (image_files.filterMap fun img_path =>
      match image_to_base64 fs img_path with
      | some base64_image =>
          if base64_image.isEmpty then none
          else some (ContentItem.image base64_image)
      | none => none)
    ++ [ContentItem.text (promptText image_files.length)]

/-- Observable result of `analyze_images`: the returned value (`None` or
the extracted response text), whether the API call was issued, and the
request content that was assembled (when any was). -/
structure AnalyzeOutcome where
  response : Option String
  apiCalled : Bool
  content : Option (List ContentItem)
deriving DecidableEq

/-- `analyze_images` (lines 160-226): return `None` at once on an empty
list; otherwise assemble the content, call the API, and extract
`response.content[0].text`.  The `try/except` of lines 168-226 converts a
raising call, and a response with no segments (an `IndexError` at
line 219), into a `None` return. -/
def analyze_images (fs : String → Except Unit String)
    (api : List ContentItem → ApiOutcome)
    (image_files : List String) : AnalyzeOutcome :=
  if image_files.isEmpty then
    { response := none, apiCalled := false, content := none }
  else
    let content := requestContent fs image_files
    match api content with
    | ApiOutcome.raises =>
        { response := none, apiCalled := true, content := some content }
    | ApiOutcome.response segments =>
        match segments.head? with
        | none => { response := none, apiCalled := true, content := some content }
        | some first =>
            { response := some first, apiCalled := true, content := some content }

/-! ## Main loop (`main`, lines 232-276)

One iteration of the `while True` loop, from one `wait_for_press` to the
next, is driven by a `LoopEnv`: the capture outcomes of the burst, the
filesystem contents at analysis time, and the API behaviour.  Its
observable effects record whether `analyze_images` was invoked, whether the
SuccessDouble cue was played, what was printed, and whether the
`time.sleep(1)` at line 270 was reached (the `continue` at line 250 for an
empty burst skips it). -/

structure LoopEnv where
  outcomes : List CaptureOutcome
  fs : String → Except Unit String
  api : List ContentItem → ApiOutcome

structure LoopEffects where
  analyzeCalled : Bool
  doubleClicked : Bool
  printed : Option String
  sleptOneSec : Bool
deriving DecidableEq

/-- One iteration of the orchestrator loop body (lines 240-270). -/
def loopIter (env : LoopEnv) : LoopEffects :=
  let captured_files := capture_burst env.outcomes
  if captured_files.isEmpty then
    { analyzeCalled := false, doubleClicked := false, printed := none,
      sleptOneSec := false }
  else
    let result := analyze_images env.fs env.api captured_files
    if truthy result.response then
      { analyzeCalled := true, doubleClicked := true, printed := result.response,
        sleptOneSec := true }
    else
      { analyzeCalled := true, doubleClicked := false, printed := none,
        sleptOneSec := true }

/-- The orchestrator loop over a list of session environments: each
iteration completes and the loop moves on to the next `wait_for_press`. -/
def mainLoop (envs : List LoopEnv) : List LoopEffects :=
  envs.map loopIter

/-! ## Whole-process trace (startup + `main` + shutdown, lines 240-276)

`processTrace` gives the whole-process event trace and exit code for a run
that performs `sessions` complete sessions and then receives
`KeyboardInterrupt` while blocked in `wait_for_press` at the Idle point.
When startup already exits (missing credential), `main` is never entered.
On the interrupt, the handler of lines 272-276 runs `picam.stop()` then
`picam.close()` and `main` returns, so the process exits with status 0. -/

inductive ProcEvent where
  | setup (e : StartEvent)
  | waitPress
  | sessionRun
  | stopCamera
  | closeCamera
deriving DecidableEq

def processTrace (apiKey : Option String) (hapticsOk : Bool)
    (sessions : Nat) : List ProcEvent × Nat :=
  let s := startupEvents apiKey hapticsOk
  match s.2 with
  | some code => (s.1.map ProcEvent.setup, code)
  | none =>
      (s.1.map ProcEvent.setup
        ++ (List.replicate sessions [ProcEvent.waitPress, ProcEvent.sessionRun]).flatten
        ++ [ProcEvent.waitPress, ProcEvent.stopCamera, ProcEvent.closeCamera], 0)

/-! ## Concrete environments used in witnesses and counterexamples -/

/-- A filesystem on which every read succeeds with a non-empty encoding. -/
def fsAll : String → Except Unit String := fun _ => Except.ok "QUFB"

/-- A filesystem on which every read raises. -/
def fsErr : String → Except Unit String := fun _ => Except.error ()

/-- A filesystem on which every file is readable but empty, so its base64
encoding is the empty string. -/
def fsEmptyFile : String → Except Unit String := fun _ => Except.ok ""

/-- An API on which every call raises a transport error. -/
def apiRaises : List ContentItem → ApiOutcome := fun _ => ApiOutcome.raises

/-- An API whose every response carries one empty text segment. -/
def apiEmptyText : List ContentItem → ApiOutcome :=
  fun _ => ApiOutcome.response [""]

/-- A session whose single capture cycle succeeds and whose analysis call
raises. -/
def envC3 : LoopEnv :=
  { outcomes := [CaptureOutcome.ok 5], fs := fsAll, api := apiRaises }

/-- A session whose single capture cycle succeeds and whose analysis
response carries the empty text. -/
def envC4 : LoopEnv :=
  { outcomes := [CaptureOutcome.ok 1], fs := fsAll, api := apiEmptyText }

/-- A session in which the button is released before any capture cycle
runs, so the burst is empty and the session is discarded. -/
def envC8 : LoopEnv := { outcomes := [], fs := fsErr, api := apiRaises }

/-! ## Helper lemmas -/

theorem capture_burst_length_add (outcomes : List CaptureOutcome) :
    (capture_burst outcomes).length + (outcomes.filter isFail).length
      = outcomes.length := by
  induction outcomes with
  | nil => rfl
  | cons o rest ih =>
      cases o <;>
        simp [capture_burst, burstTrace, burstIter, isFail,
          List.filterMap_cons] at * <;> omega

theorem burstClicks_eq_length (outcomes : List CaptureOutcome) :
    burstClicks outcomes = (capture_burst outcomes).length := by
  induction outcomes with
  | nil => rfl
  | cons o rest ih =>
      cases o <;>
        simp [burstClicks, capture_burst, burstTrace, burstIter,
          List.filterMap_cons] at * <;> omega

theorem playN_disabled (failAt : Option Nat) (effects : List Nat)
    (pause_after : Bool) (n : Nat) :
    playN failAt effects pause_after n false = (0, false) := by
  induction n with
  | zero => rfl
  | succ n ih => simp [playN, play_haptic_sequence, ih]

/-! ## Claims -/

/-- Claim C2: in every capture session, each loop iteration whose capture
succeeds appends exactly one captured file and plays exactly one shutter
click; each iteration whose capture raises appends nothing, plays nothing,
and does not abort the session (the remaining cycles are processed
unchanged); hence a burst of `N` held-duration cycles of which `K` fail
yields exactly `N - K` captured files, and as many shutter clicks. -/
theorem C2_burst_iteration_effects (outcomes : List CaptureOutcome) :
    (∀ ts, burstIter (CaptureOutcome.ok ts)
      = { appended := some (frameFileName ts), clicks := 1, sleptMs := BURST_DELAY })
    ∧ burstIter CaptureOutcome.fail = { appended := none, clicks := 0, sleptMs := 0 }
    ∧ (∀ rest, capture_burst (CaptureOutcome.fail :: rest) = capture_burst rest)
    ∧ (capture_burst outcomes).length
        = outcomes.length - (outcomes.filter isFail).length
    ∧ burstClicks outcomes = outcomes.length - (outcomes.filter isFail).length := by
  refine ⟨fun ts => rfl, rfl, fun rest => rfl, ?_, ?_⟩
  · have h := capture_burst_length_add outcomes
    omega
  · have h := capture_burst_length_add outcomes
    have h2 := burstClicks_eq_length outcomes
    omega

/-- Claim C5: `_play_haptic_sequence` is total (the driver interaction is
an `Except` computation whose error is always caught, mirroring
`except Exception: pass`, so no exception reaches the caller); with the
actuator unavailable it makes no driver call at all; the enabled flag is
never modified by a play, so a failed or skipped play does not disable
future plays; and any number of plays on an unavailable actuator makes
zero driver calls and leaves the actuator unavailable. -/
theorem C5_haptic_degrade_noop (failAt : Option Nat) (effects : List Nat)
    (pause_after : Bool) (n : Nat) :
    play_haptic_sequence false failAt effects pause_after
      = { driverCallsMade := 0, enabledAfter := false }
    ∧ (∀ enabled, (play_haptic_sequence enabled failAt effects pause_after).enabledAfter
        = enabled)
    ∧ playN failAt effects pause_after n false = (0, false) := by
  refine ⟨rfl, ?_, playN_disabled failAt effects pause_after n⟩
  intro enabled
  cases enabled
  · rfl
  · simp only [play_haptic_sequence]
    cases driveSequence failAt effects pause_after <;> rfl

/-- Claim C7 counterexample: the `time.sleep(BURST_DELAY)` of line 135 sits
inside the `try`, so an iteration whose capture raises performs no
inter-frame sleep before the next attempt begins: in a burst whose first
cycle fails and whose second succeeds, the slept delays are 0 ms then
200 ms, refuting the claim that the delay is slept after every capture
attempt whether it succeeded or failed. -/
theorem C7_counterexample :
    (burstIter CaptureOutcome.fail).sleptMs = 0
    ∧ (burstTrace [CaptureOutcome.fail, CaptureOutcome.ok 1]).map IterEffects.sleptMs
        = [0, BURST_DELAY] :=
  ⟨rfl, rfl⟩

/-- Claim C7 as amended: the capture loop sleeps the fixed `BURST_DELAY`
(200 ms) after a capture attempt if and only if that attempt succeeded; a
failed attempt proceeds to the next attempt with no inter-frame delay. -/
theorem C7_sleep_only_after_success (o : CaptureOutcome) :
    (burstIter o).sleptMs = if isFail o then 0 else BURST_DELAY := by
  cases o <;> rfl

/-- Claim C8 counterexample: a session that closes with zero captured files
takes the `continue` at line 250, which skips the `time.sleep(1)` at
line 270: the orchestrator resumes `wait_for_press` immediately, refuting
the claim that it pauses one second on every return to Idle. -/
theorem C8_counterexample :
    (loopIter envC8).sleptOneSec = false
    ∧ (loopIter envC8).analyzeCalled = false :=
  ⟨rfl, rfl⟩

/-- Claim C8 as amended: the orchestrator sleeps one second before resuming
`wait_for_press` exactly when the session produced at least one captured
file (whether its analysis failed or succeeded); after a discarded (empty)
session the `continue` skips the pause. -/
theorem C8_pause_iff_nonempty_session (env : LoopEnv) :
    (loopIter env).sleptOneSec = !(capture_burst env.outcomes).isEmpty := by
  unfold loopIter
  cases h : (capture_burst env.outcomes).isEmpty
  · cases ht : truthy (analyze_images env.fs env.api (capture_burst env.outcomes)).response <;>
      simp [h, ht]
  · simp [h]

/-- Claim C10: `analyze_images` called with an empty list of image files
returns the failure value `None` at once, assembling no request content
and making no API call. -/
theorem C10_empty_list_no_call (fs : String → Except Unit String)
    (api : List ContentItem → ApiOutcome) :
    analyze_images fs api []
      = { response := none, apiCalled := false, content := none } :=
  rfl

/-- Claim C1 counterexample: with the credential absent the process does
exit with code 1, but only at line 69, after the button (line 43), the
haptics (lines 47-54) and the camera (lines 57-64) have all been
initialised — the startup event list for a missing key contains the
button, haptics and camera initialisation events, refuting the claim that
the exit happens before any of them is attempted. -/
theorem C1_counterexample :
    (startupEvents none true).2 = some 1
    ∧ StartEvent.initButton ∈ (startupEvents none true).1
    ∧ StartEvent.initHaptics true ∈ (startupEvents none true).1
    ∧ StartEvent.startCamera ∈ (startupEvents none true).1 := by
  refine ⟨rfl, ?_, ?_, ?_⟩ <;> decide

/-- Claim C1 as amended: if the credential environment value is absent (or
empty, since the check is `if not API_KEY:`), the process exits with status
1, but only after the capture directory is created and the button, haptics
and camera initialisations have run; the exit does happen before the API
client is constructed. -/
theorem C1_credential_exit_after_hardware (hapticsOk : Bool) :
    startupEvents none hapticsOk
      = ([StartEvent.mkdirCaptureDir, StartEvent.initButton,
          StartEvent.initHaptics hapticsOk, StartEvent.initCamera,
          StartEvent.startCamera], some 1)
    ∧ startupEvents (some "") hapticsOk
      = ([StartEvent.mkdirCaptureDir, StartEvent.initButton,
          StartEvent.initHaptics hapticsOk, StartEvent.initCamera,
          StartEvent.startCamera], some 1)
    ∧ StartEvent.initClient ∉ (startupEvents none hapticsOk).1 := by
  refine ⟨rfl, rfl, ?_⟩
  simp [startupEvents, truthy]

/-- Claim C3: every transport, authentication or malformed-response error
raised during the analysis request (a raising `client.messages.create`, or
a response with no content segment) is caught inside `analyze_images` and
converted into the failure return `None`; no success cue is played and
nothing is printed for that session, and the loop proceeds to the next
session, whose `wait_for_press` runs as usual. -/
theorem C3_analysis_error_contained (env : LoopEnv) (rest : List LoopEnv)
    (h : env.api (requestContent env.fs (capture_burst env.outcomes)) = ApiOutcome.raises
       ∨ env.api (requestContent env.fs (capture_burst env.outcomes))
           = ApiOutcome.response []) :
    (analyze_images env.fs env.api (capture_burst env.outcomes)).response = none
    ∧ (loopIter env).doubleClicked = false
    ∧ (loopIter env).printed = none
    ∧ mainLoop (env :: rest) = loopIter env :: mainLoop rest := by
  have hresp :
      (analyze_images env.fs env.api (capture_burst env.outcomes)).response = none := by
    unfold analyze_images
    cases he : (capture_burst env.outcomes).isEmpty
    · rcases h with h | h <;> simp [he, h]
    · simp [he]
  refine ⟨hresp, ?_, ?_, rfl⟩ <;>
    · unfold loopIter
      cases he : (capture_burst env.outcomes).isEmpty <;> simp [he, hresp, truthy]

/-- Witness for C3 at a concrete session: one successful capture cycle and
an API that raises on every call. -/
theorem C3_witness :
    (analyze_images envC3.fs envC3.api (capture_burst envC3.outcomes)).response = none
    ∧ (loopIter envC3).doubleClicked = false
    ∧ (loopIter envC3).printed = none
    ∧ mainLoop (envC3 :: []) = loopIter envC3 :: mainLoop [] :=
  C3_analysis_error_contained envC3 [] (Or.inl rfl)

/-- Claim C4 counterexample: a session with one successful capture whose
analysis response carries the empty text segment: `analyze_images` returns
the extracted text (`some ""`, a successful analysis result), yet
`if response:` at line 256 treats the empty string as falsy, so no
SuccessDouble cue is played — refuting the claimed equivalence between a
successful analysis result and the success cue. -/
theorem C4_counterexample :
    (capture_burst envC4.outcomes).isEmpty = false
    ∧ (analyze_images envC4.fs envC4.api (capture_burst envC4.outcomes)).response
        = some ""
    ∧ (loopIter envC4).doubleClicked = false :=
  ⟨rfl, rfl, rfl⟩

/-- Claim C4 as amended: a session that closes with zero captured files is
discarded and `analyze_images` is never invoked on it; `analyze_images` is
invoked exactly on the sessions with at least one captured file; and the
SuccessDouble cue is played exactly when the session was completed and the
analysis returned a truthy (present and non-empty) response text — the
code treats an empty response text as a failure — in which case that
response is also printed, and nothing is printed otherwise. -/
theorem C4_analysis_gate_and_success_cue (env : LoopEnv) :
    (loopIter env).analyzeCalled = !(capture_burst env.outcomes).isEmpty
    ∧ (loopIter env).doubleClicked
        = (!(capture_burst env.outcomes).isEmpty
            && truthy (analyze_images env.fs env.api (capture_burst env.outcomes)).response)
    ∧ (loopIter env).printed
        = (if (loopIter env).doubleClicked
           then (analyze_images env.fs env.api (capture_burst env.outcomes)).response
           else none) := by
  unfold loopIter
  cases he : (capture_burst env.outcomes).isEmpty
  · cases ht : truthy (analyze_images env.fs env.api (capture_burst env.outcomes)).response <;>
      simp [he, ht]
  · simp [he]

/-- Claim C9 counterexample: a frame whose file is readable but empty is
also skipped — `image_to_base64` succeeds with the empty encoding, yet
`if base64_image:` at line 175 is falsy on the empty string, so the frame
is omitted from the request: with one readable-but-empty frame the request
content holds the prompt alone, refuting the claim that exactly the
unreadable/unencodable frames are skipped while the remaining frames are
included. -/
theorem C9_counterexample :
    image_to_base64 fsEmptyFile "a.jpg" = some ""
    ∧ (analyze_images fsEmptyFile apiRaises ["a.jpg"]).content
        = some [ContentItem.text (promptText 1)] :=
  ⟨rfl, rfl⟩

/-- Claim C9 as amended: during analysis of a non-empty frame list, every
frame whose bytes cannot be read or whose encoding is falsy (the empty
encoding of an empty file is skipped too, since line 175 tests Python
truthiness) is omitted, while the remaining frames are included in session
order followed by the single text prompt; and the request is still sent —
containing the prompt text alone — even when skipping empties the image
list entirely. -/
theorem C9_skip_bad_frames_still_send (fs : String → Except Unit String)
    (api : List ContentItem → ApiOutcome) (image_files : List String)
    (h : image_files ≠ []) :
    (analyze_images fs api image_files).content
      = some ((image_files.filterMap fun img_path =>
            match image_to_base64 fs img_path with
            | some base64_image =>
                if base64_image.isEmpty then none
                else some (ContentItem.image base64_image)
            | none => none)
          ++ [ContentItem.text (promptText image_files.length)])
    ∧ (analyze_images fs api image_files).apiCalled = true := by
  have he : image_files.isEmpty = false := by
    cases image_files
    · exact absurd rfl h
    · rfl
  unfold analyze_images
  rw [he]
  simp only [Bool.false_eq_true, if_false]
  cases api (requestContent fs image_files) with
  | raises => exact ⟨rfl, rfl⟩
  | response segments =>
      cases segments with
      | nil => exact ⟨rfl, rfl⟩
      | cons s rest => exact ⟨rfl, rfl⟩

/-- Witness for C9 at a concrete input: a single frame whose read raises,
so the image list empties entirely and the request still goes out with the
prompt alone. -/
theorem C9_witness :
    (analyze_images fsErr apiRaises ["a.jpg"]).content
      = some (((["a.jpg"] : List String).filterMap fun img_path =>
            match image_to_base64 fsErr img_path with
            | some base64_image =>
                if base64_image.isEmpty then none
                else some (ContentItem.image base64_image)
            | none => none)
          ++ [ContentItem.text (promptText (["a.jpg"] : List String).length)])
    ∧ (analyze_images fsErr apiRaises ["a.jpg"]).apiCalled = true :=
  C9_skip_bad_frames_still_send fsErr apiRaises ["a.jpg"] (by simp)

/-- Claim C6 counterexample: the camera is configured and started at
lines 57-64, before the credential check at line 67, and the
missing-credential exit raises `SystemExit(1)` with no release step: on
that exit path the trace contains the camera start but no camera close and
the exit status is 1 — refuting the claim that the camera release occurs
on every exit path. -/
theorem C6_counterexample :
    ProcEvent.setup StartEvent.startCamera ∈ (processTrace none true 0).1
    ∧ ProcEvent.closeCamera ∉ (processTrace none true 0).1
    ∧ (processTrace none true 0).2 = 1 := by
  refine ⟨?_, ?_, rfl⟩ <;> decide

/-- Claim C6 as amended: when the interrupt signal is observed at the Idle
wait point (startup having completed with a truthy credential), the
process performs an ordered shutdown whose final two actions are stopping
the camera stream and then releasing the camera handle, and it exits with
status 0; this release happens on the interrupt path, but not on every
exit path — the missing-credential startup exit terminates with the
started camera unreleased. -/
theorem C6_interrupt_ordered_shutdown (apiKey : Option String)
    (hapticsOk : Bool) (sessions : Nat) (h : truthy apiKey = true) :
    (processTrace apiKey hapticsOk sessions).2 = 0
    ∧ (∃ pre, (processTrace apiKey hapticsOk sessions).1
        = pre ++ [ProcEvent.stopCamera, ProcEvent.closeCamera])
    ∧ ProcEvent.closeCamera ∈ (processTrace apiKey hapticsOk sessions).1 := by
  unfold processTrace startupEvents
  rw [h]
  refine ⟨rfl, ?_, ?_⟩
  · refine ⟨([StartEvent.mkdirCaptureDir, StartEvent.initButton,
        StartEvent.initHaptics hapticsOk, StartEvent.initCamera,
        StartEvent.startCamera] ++ [StartEvent.initClient]).map ProcEvent.setup
      ++ (List.replicate sessions [ProcEvent.waitPress, ProcEvent.sessionRun]).flatten
      ++ [ProcEvent.waitPress], ?_⟩
    simp
  · simp

/-- Witness for C6 at a concrete input: a present non-empty credential,
working haptics, and zero sessions before the interrupt. -/
theorem C6_witness :
    (processTrace (some "k") true 0).2 = 0
    ∧ (∃ pre, (processTrace (some "k") true 0).1
        = pre ++ [ProcEvent.stopCamera, ProcEvent.closeCamera])
    ∧ ProcEvent.closeCamera ∈ (processTrace (some "k") true 0).1 :=
  C6_interrupt_ordered_shutdown (some "k") true 0 rfl

end WorksheetCapture
